import Mathlib

/-!
Shallow embedding of `src/server.js` (Grammar Guru call app).

The server keeps two MongoDB collections — users and call sessions — and
exposes HTTP handlers. We model the persistent state as a `ServerState`
(lists of users and sessions plus a fresh-id counter standing for Mongo's
`_id` generation), and each handler as a pure function from the state, the
request parameters, the current time (milliseconds, for `Date.now()` /
`new Date()`), and the outcome of the outbound axios request to the
ElevenLabs provider (an `Except AxiosError` value: `Except.ok` for a 2xx
response carrying the fields the handler reads, `Except.error` for a thrown
axios error) to the new state and the HTTP response sent.

JavaScript truthiness on the string-valued request fields (`!phoneNumber`,
`!username`, …) is modelled by `truthy : Option String → Bool`: `none`
stands for an absent/undefined field and the empty string is falsy.
-/

namespace GrammarGuru

/-- Truthiness of an optional string request field: absent (undefined) and
the empty string are falsy, every other string is truthy. -/
def truthy : Option String → Bool
  | none => false
  | some s => !s.isEmpty

/-- A document of the `User` collection (schema at src/server.js:29-33). -/
structure UserRec where
  username : String
  mobile : String
  password : String
  deriving Repr, DecidableEq

/-- One entry of a session's `conversationLog` (src/server.js:44-48). -/
structure LogEntry where
  timestamp : Nat
  speaker : String
  message : String
  deriving Repr, DecidableEq

/-- A document of the `CallSession` collection (schema at
src/server.js:37-51). Times are milliseconds since the epoch; `endTime`
and `duration` start out unset. `id` stands for the Mongo `_id`. -/
structure CallSession where
  id : Nat
  callId : String
  phoneNumber : String
  status : String
  startTime : Nat
  endTime : Option Nat
  duration : Option Int
  conversationLog : List LogEntry
  createdAt : Nat
  deriving Repr, DecidableEq

/-- The persistent server state: the two collections and the next fresh
`_id` for a newly saved session. -/
structure ServerState where
  users : List UserRec
  sessions : List CallSession
  nextId : Nat
  deriving Repr, DecidableEq

/-- The `user` object returned by register/login: only username and
mobile, never the password (src/server.js:66,83). -/
structure RegUser where
  username : String
  mobile : String
  deriving Repr, DecidableEq

/-- An HTTP response: the status code set with `res.status(...)` (200 when
none is set) and the JSON body fields any handler of this server may emit;
`none` marks a field absent from (or undefined in) the body. -/
structure ApiResponse where
  status : Nat
  success : Bool
  error : Option String := none
  user : Option RegUser := none
  message : Option String := none
  callId : Option String := none
  sessionId : Option Nat := none
  callStatus : Option String := none
  duration : Option Int := none
  startTime : Option Nat := none
  endTime : Option Nat := none
  deriving Repr, DecidableEq

/-- The parts of a thrown axios error that the catch blocks read:
`error.response?.status`, `error.response?.data?.detail`, `error.code`
and `error.message` (src/server.js:166-194). -/
structure AxiosError where
  responseStatus : Option Nat
  responseDetail : Option String
  code : Option String
  message : Option String
  deriving Repr, DecidableEq

/-- POST /api/register (src/server.js:54-70): 400 if any field is falsy,
409 if the username already exists, else save the user and return
`{username, mobile}`. -/
def register (st : ServerState) (username mobile password : Option String) :
    ServerState × ApiResponse :=
  if !(truthy username && truthy mobile && truthy password) then
    (st, { status := 400, success := false, error := some "All fields are required." })
  else
    let uname := username.getD ""
    let mob := mobile.getD ""
    let pw := password.getD ""
    match st.users.find? (fun u => u.username == uname) with
    | some _ =>
      (st, { status := 409, success := false, error := some "Username already exists." })
    | none =>
      ({ st with users := st.users ++ [{ username := uname, mobile := mob, password := pw }] },
       { status := 200, success := true, user := some { username := uname, mobile := mob } })

/-- POST /api/login (src/server.js:73-87): 400 if a field is falsy, 401 if
the user is absent or the password differs by plain `!==`, else return the
stored `{username, mobile}`. -/
def login (st : ServerState) (username password : Option String) :
    ServerState × ApiResponse :=
  if !(truthy username && truthy password) then
    (st, { status := 400, success := false, error := some "All fields are required." })
  else
    let uname := username.getD ""
    let pw := password.getD ""
    match st.users.find? (fun u => u.username == uname) with
    | none =>
      (st, { status := 401, success := false, error := some "Invalid username or password." })
    | some u =>
      if u.password != pw then
        (st, { status := 401, success := false, error := some "Invalid username or password." })
      else
        (st, { status := 200, success := true,
               user := some { username := u.username, mobile := u.mobile } })

/-- The error mapping of the catch block of POST /api/make-call
(src/server.js:166-194), in the source's branch order: upstream 401, 400,
429, then axios timeout code ECONNABORTED, then a truthy upstream
`detail`, then a truthy `error.message`, else the generic pair. -/
def mapCallError (e : AxiosError) : Nat × String :=
  if e.responseStatus == some 401 then
    (401, "API Key Error: Check your ELEVENLABS_API_KEY in .env file")
  else if e.responseStatus == some 400 then
    (400, "Phone Number Error: Make sure your number is in E.164 format")
  else if e.responseStatus == some 429 then
    (429, "Rate limit exceeded. Please try again later.")
  else if e.code == some "ECONNABORTED" then
    (408, "Request timeout. Please try again.")
  else if truthy e.responseDetail then
    (500, e.responseDetail.getD "")
  else if truthy e.message then
    (500, e.message.getD "")
  else
    (500, "Failed to make call")

/-- POST /api/make-call (src/server.js:101-195). `provider` is the outcome
of the axios POST to the ElevenLabs outbound-call endpoint; on success it
carries `response.data.conversation_id`. The falsy-phone and missing-key
checks return before that request is made, so on those paths the result
does not depend on `provider`. -/
def makeCall (st : ServerState) (phoneNumber apiKey : Option String) (now : Nat)
    (provider : Except AxiosError String) : ServerState × ApiResponse :=
  if !(truthy phoneNumber) then
    (st, { status := 400, success := false, error := some "Phone number is required" })
  else if !(truthy apiKey) then
    (st, { status := 500, success := false,
           error := some "ElevenLabs API key not configured. Please add ELEVENLABS_API_KEY to your .env file" })
  else
    match provider with
    | Except.ok convId =>
      let s : CallSession :=
        { id := st.nextId, callId := convId, phoneNumber := phoneNumber.getD "",
          status := "initiated", startTime := now, endTime := none, duration := none,
          conversationLog :=
            [{ timestamp := now, speaker := "system", message := "Call initiated successfully" }],
          createdAt := now }
      ({ st with sessions := st.sessions ++ [s], nextId := st.nextId + 1 },
       { status := 200, success := true, message := some "Call initiated successfully",
         callId := some convId, sessionId := some st.nextId })
    | Except.error e =>
      let m := mapCallError e
      (st, { status := m.1, success := false, error := some m.2 })

/-- GET /api/call-status/:callId (src/server.js:264-285): 404 if no session
matches, else the stored status, duration, startTime and endTime, read
from the local collection only — the handler issues no provider request,
which is why this model takes no provider argument. -/
def getStatus (st : ServerState) (callId : String) : ApiResponse :=
  match st.sessions.find? (fun s => s.callId == callId) with
  | none => { status := 404, success := false, error := some "Call session not found" }
  | some s =>
    { status := 200, success := true, callStatus := some s.status,
      duration := s.duration, startTime := some s.startTime, endTime := s.endTime }

/-- The session update of POST /api/end-call (src/server.js:306-308):
status forced to completed, endTime set to now, duration recomputed as
`Math.floor((endTime - startTime) / 1000)` — floor division of the
millisecond difference, hence `Int.fdiv`. -/
def completeSession (now : Nat) (s : CallSession) : CallSession :=
  { s with status := "completed", endTime := some now,
           duration := some (((now : Int) - (s.startTime : Int)).fdiv 1000) }

/-- Replace the first element satisfying `p` by its image under `f`,
mirroring `findOne` followed by a `save` of the mutated document. -/
def updateFirst (p : α → Bool) (f : α → α) : List α → List α
  | [] => []
  | x :: xs => if p x then f x :: xs else x :: updateFirst p f xs

/-- POST /api/end-call/:callId (src/server.js:288-321). `provider` is the
outcome of the axios POST to the provider's end-call endpoint; its success
payload is ignored. If it throws, the catch returns 500 and the session is
left untouched; if it succeeds, the matching session (when one exists) is
completed and the response reports success either way. -/
def endCall (st : ServerState) (callId : String) (now : Nat)
    (provider : Except AxiosError String) : ServerState × ApiResponse :=
  match provider with
  | Except.error _ =>
    (st, { status := 500, success := false, error := some "Failed to end call" })
  | Except.ok _ =>
    ({ st with
        sessions := updateFirst (fun s => s.callId == callId) (completeSession now) st.sessions },
     { status := 200, success := true, message := some "Call ended successfully" })

/-- The server's state at startup: empty collections. -/
def initialState : ServerState := { users := [], sessions := [], nextId := 0 }

/-- States reachable from startup through the in-scope state-changing
handlers (GET /api/call-status and /api/health never write). -/
inductive Reachable : ServerState → Prop where
  | init : Reachable initialState
  | step_register (st : ServerState) (u m p : Option String) :
      Reachable st → Reachable (register st u m p).1
  | step_login (st : ServerState) (u p : Option String) :
      Reachable st → Reachable (login st u p).1
  | step_makeCall (st : ServerState) (pn key : Option String) (now : Nat)
      (pr : Except AxiosError String) :
      Reachable st → Reachable (makeCall st pn key now pr).1
  | step_endCall (st : ServerState) (cid : String) (now : Nat)
      (pr : Except AxiosError String) :
      Reachable st → Reachable (endCall st cid now pr).1

/-- A session status in the range the in-scope operations ever write. -/
def sessionStatusOk (s : CallSession) : Bool :=
  s.status == "initiated" || s.status == "completed"

/-- Every stored session has a status among the written ones. -/
def allStatusesOk (st : ServerState) : Bool :=
  st.sessions.all sessionStatusOk

theorem updateFirst_eq_of_find?_eq_none (p : α → Bool) (f : α → α) (l : List α)
    (h : l.find? p = none) : updateFirst p f l = l := by
  induction l with
  | nil => rfl
  | cons x xs ih =>
    cases hx : p x with
    | true =>
      simp only [List.find?_cons, hx] at h
      exact absurd h (by simp)
    | false =>
      simp only [List.find?_cons, hx] at h
      simp only [updateFirst, hx, Bool.false_eq_true, if_false, ih h]

theorem find?_updateFirst (p : α → Bool) (f : α → α)
    (hf : ∀ x, p x = true → p (f x) = true) (l : List α) :
    (updateFirst p f l).find? p = (l.find? p).map f := by
  induction l with
  | nil => rfl
  | cons x xs ih =>
    cases hx : p x with
    | true =>
      simp [updateFirst, hx, List.find?_cons, hf x hx]
    | false =>
      simp [updateFirst, hx, List.find?_cons, ih]

theorem all_updateFirst (p : α → Bool) (f : α → α) (q : α → Bool)
    (hf : ∀ x, q (f x) = true) (l : List α) (h : l.all q = true) :
    (updateFirst p f l).all q = true := by
  induction l with
  | nil => rfl
  | cons x xs ih =>
    rw [List.all_cons, Bool.and_eq_true] at h
    cases hx : p x with
    | true =>
      simp only [updateFirst, hx, if_true]
      rw [List.all_cons, Bool.and_eq_true]
      exact And.intro (hf x) h.2
    | false =>
      simp only [updateFirst, hx, Bool.false_eq_true, if_false]
      rw [List.all_cons, Bool.and_eq_true]
      exact And.intro h.1 (ih h.2)

theorem register_sessions (st : ServerState) (u m p : Option String) :
    (register st u m p).1.sessions = st.sessions := by
  simp only [register]
  split
  · rfl
  · split <;> rfl

theorem login_state (st : ServerState) (u p : Option String) :
    (login st u p).1 = st := by
  simp only [login]
  split
  · rfl
  · split
    · rfl
    · split <;> rfl

theorem makeCall_statuses (st : ServerState) (pn key : Option String) (now : Nat)
    (pr : Except AxiosError String) (h : allStatusesOk st = true) :
    allStatusesOk (makeCall st pn key now pr).1 = true := by
  simp only [makeCall]
  split
  · exact h
  · split
    · exact h
    · cases pr with
      | ok c =>
        simp only [allStatusesOk] at h ⊢
        simp [List.all_append, h, sessionStatusOk]
      | error e => exact h

theorem endCall_statuses (st : ServerState) (cid : String) (now : Nat)
    (pr : Except AxiosError String) (h : allStatusesOk st = true) :
    allStatusesOk (endCall st cid now pr).1 = true := by
  cases pr with
  | error e => exact h
  | ok a =>
    simp only [endCall, allStatusesOk] at h ⊢
    exact all_updateFirst _ _ _ (fun s => by simp [completeSession, sessionStatusOk]) _ h

/-- C1: every reachable state stores only statuses initiated or completed;
no in-scope operation ever writes active or failed. -/
theorem reachable_status_invariant (st : ServerState) (h : Reachable st) :
    allStatusesOk st = true := by
  induction h with
  | init => rfl
  | step_register st u m p _ ih =>
    simpa only [allStatusesOk, register_sessions] using ih
  | step_login st u p _ ih =>
    simpa only [login_state] using ih
  | step_makeCall st pn key now pr _ ih => exact makeCall_statuses st pn key now pr ih
  | step_endCall st cid now pr _ ih => exact endCall_statuses st cid now pr ih

/-- C1 witness: the invariant evaluated on a concrete reachable state, the
startup state after one successful make-call and one end-call. -/
theorem reachable_status_invariant_witness :
    allStatusesOk
      (endCall
        (makeCall initialState (some "+15551234567") (some "k") 5000
          (Except.ok "abc123")).1
        "abc123" 9000 (Except.ok "ok")).1 = true :=
  reachable_status_invariant _
    (Reachable.step_endCall _ "abc123" 9000 (Except.ok "ok")
      (Reachable.step_makeCall _ (some "+15551234567") (some "k") 5000
        (Except.ok "abc123") Reachable.init))

/-- A concrete session fixture for witnesses: a call started at 5000 ms. -/
def exSession : CallSession :=
  { id := 0, callId := "abc123", phoneNumber := "+15551234567", status := "initiated",
    startTime := 5000, endTime := none, duration := none,
    conversationLog :=
      [{ timestamp := 5000, speaker := "system", message := "Call initiated successfully" }],
    createdAt := 5000 }

/-- A concrete user fixture for witnesses. -/
def exUser : UserRec := { username := "alice", mobile := "+15550001111", password := "pw123" }

/-- A concrete server state for witnesses: one user and one session. -/
def exState : ServerState := { users := [exUser], sessions := [exSession], nextId := 1 }

/-- Core update fact shared by the end-call claims: when a session matches,
an acknowledged end-call makes the matching lookup return that session
completed at `now` with the recomputed duration. -/
theorem endCall_find_some (st : ServerState) (cid : String) (now : Nat) (ack : String)
    (s : CallSession)
    (h : st.sessions.find? (fun t => t.callId == cid) = some s) :
    (endCall st cid now (Except.ok ack)).1.sessions.find? (fun t => t.callId == cid) =
      some { s with status := "completed", endTime := some now,
                    duration := some (((now : Int) - (s.startTime : Int)).fdiv 1000) } := by
  have hfind := find?_updateFirst (fun t => t.callId == cid) (completeSession now)
    (fun x hx => hx) st.sessions
  rw [h] at hfind
  simpa [endCall, completeSession] using hfind

/-- C2: ending a call whose local session exists — whatever the provider
acknowledgment body `ack` is — completes that session with endTime = now
and duration = floor((now − startTime) / 1000), and getStatus then
observes exactly those stored values. -/
theorem endCall_completes (st : ServerState) (cid : String) (now : Nat) (ack : String)
    (s : CallSession)
    (h : st.sessions.find? (fun t => t.callId == cid) = some s) :
    (endCall st cid now (Except.ok ack)).1.sessions.find? (fun t => t.callId == cid) =
      some { s with status := "completed", endTime := some now,
                    duration := some (((now : Int) - (s.startTime : Int)).fdiv 1000) } ∧
    getStatus (endCall st cid now (Except.ok ack)).1 cid =
      { status := 200, success := true, callStatus := some "completed",
        duration := some (((now : Int) - (s.startTime : Int)).fdiv 1000),
        startTime := some s.startTime, endTime := some now } := by
  have hfind := endCall_find_some st cid now ack s h
  refine ⟨hfind, ?_⟩
  simp [getStatus, hfind]

/-- C2 witness: the theorem evaluated at the fixture state. -/
theorem endCall_completes_witness :
    (endCall exState "abc123" 9000 (Except.ok "ok")).1.sessions.find?
        (fun t => t.callId == "abc123") =
      some { exSession with
             status := "completed", endTime := some 9000,
             duration := some (((9000 : Int) - (exSession.startTime : Int)).fdiv 1000) } ∧
    getStatus (endCall exState "abc123" 9000 (Except.ok "ok")).1 "abc123" =
      { status := 200, success := true, callStatus := some "completed",
        duration := some (((9000 : Int) - (exSession.startTime : Int)).fdiv 1000),
        startTime := some exSession.startTime, endTime := some 9000 } :=
  endCall_completes exState "abc123" 9000 "ok" exSession rfl

/-- C3: ending a call with no matching local session leaves the state
unchanged and still reports success with a 200, while getStatus on the
same unknown callId returns a 404. -/
theorem endCall_missing_session_ok (st : ServerState) (cid : String) (now : Nat)
    (ack : String) (h : st.sessions.find? (fun s => s.callId == cid) = none) :
    (endCall st cid now (Except.ok ack)).1 = st ∧
    (endCall st cid now (Except.ok ack)).2.success = true ∧
    (endCall st cid now (Except.ok ack)).2.status = 200 ∧
    (getStatus st cid).status = 404 ∧
    (getStatus st cid).success = false := by
  have hu := updateFirst_eq_of_find?_eq_none (fun s => s.callId == cid)
    (completeSession now) st.sessions h
  refine ⟨?_, rfl, rfl, ?_, ?_⟩
  · simp [endCall, hu]
  · simp [getStatus, h]
  · simp [getStatus, h]

/-- C3 witness: ending an unknown call on the fixture state. -/
theorem endCall_missing_session_ok_witness :
    (endCall exState "nope" 9000 (Except.ok "ok")).1 = exState ∧
    (endCall exState "nope" 9000 (Except.ok "ok")).2.success = true ∧
    (endCall exState "nope" 9000 (Except.ok "ok")).2.status = 200 ∧
    (getStatus exState "nope").status = 404 ∧
    (getStatus exState "nope").success = false :=
  endCall_missing_session_ok exState "nope" 9000 "ok" (by decide)

/-- C10: a second end-call on an already completed session keeps status
completed but overwrites endTime with the later time and recomputes
duration from it, so the recorded duration never shrinks as end-calls
repeat (times being non-decreasing). -/
theorem endCall_overwrites_timestamps (st : ServerState) (cid : String) (t1 t2 : Nat)
    (ack1 ack2 : String) (s : CallSession)
    (h : st.sessions.find? (fun t => t.callId == cid) = some s) (hle : t1 ≤ t2) :
    (endCall st cid t1 (Except.ok ack1)).1.sessions.find? (fun t => t.callId == cid) =
      some { s with status := "completed", endTime := some t1,
                    duration := some (((t1 : Int) - (s.startTime : Int)).fdiv 1000) } ∧
    (endCall (endCall st cid t1 (Except.ok ack1)).1 cid t2 (Except.ok ack2)).1.sessions.find?
        (fun t => t.callId == cid) =
      some { s with status := "completed", endTime := some t2,
                    duration := some (((t2 : Int) - (s.startTime : Int)).fdiv 1000) } ∧
    ((t1 : Int) - (s.startTime : Int)).fdiv 1000 ≤
      ((t2 : Int) - (s.startTime : Int)).fdiv 1000 := by
  have h1 := endCall_find_some st cid t1 ack1 s h
  refine ⟨h1, ?_, ?_⟩
  · have h2 := endCall_find_some (endCall st cid t1 (Except.ok ack1)).1 cid t2 ack2 _ h1
    simpa using h2
  · rw [Int.fdiv_eq_ediv _ (by norm_num), Int.fdiv_eq_ediv _ (by norm_num)]
    exact Int.ediv_le_ediv (by norm_num) (by omega)

/-- C10 witness: two end-calls at 9000 then 12000 ms on the fixture. -/
theorem endCall_overwrites_timestamps_witness :
    (endCall exState "abc123" 9000 (Except.ok "a")).1.sessions.find?
        (fun t => t.callId == "abc123") =
      some { exSession with
             status := "completed", endTime := some 9000,
             duration := some (((9000 : Int) - (exSession.startTime : Int)).fdiv 1000) } ∧
    (endCall (endCall exState "abc123" 9000 (Except.ok "a")).1 "abc123" 12000
        (Except.ok "b")).1.sessions.find? (fun t => t.callId == "abc123") =
      some { exSession with
             status := "completed", endTime := some 12000,
             duration := some (((12000 : Int) - (exSession.startTime : Int)).fdiv 1000) } ∧
    ((9000 : Int) - (exSession.startTime : Int)).fdiv 1000 ≤
      ((12000 : Int) - (exSession.startTime : Int)).fdiv 1000 :=
  endCall_overwrites_timestamps exState "abc123" 9000 12000 "a" "b" exSession rfl
    (by norm_num)

/-- C4: when the phone number is truthy, the key configured and the
provider start-call succeeds with conversation id c not already stored,
exactly one new session is created — callId c, status initiated, startTime
now, a single system log entry — and the response returns success with
callId c and the created session's identifier. -/
theorem makeCall_success_creates_session (st : ServerState) (pn key : Option String)
    (now : Nat) (c : String) (hpn : truthy pn = true) (hkey : truthy key = true)
    (hfresh : st.sessions.find? (fun s => s.callId == c) = none) :
    (makeCall st pn key now (Except.ok c)).1.sessions =
      st.sessions ++
        [{ id := st.nextId, callId := c, phoneNumber := pn.getD "", status := "initiated",
           startTime := now, endTime := none, duration := none,
           conversationLog :=
             [{ timestamp := now, speaker := "system",
                message := "Call initiated successfully" }],
           createdAt := now }] ∧
    ((makeCall st pn key now (Except.ok c)).1.sessions.filter
        (fun s => s.callId == c)).length = 1 ∧
    (makeCall st pn key now (Except.ok c)).2 =
      { status := 200, success := true, message := some "Call initiated successfully",
        callId := some c, sessionId := some st.nextId } := by
  have hnil : st.sessions.filter (fun s => s.callId == c) = [] := by
    rw [List.filter_eq_nil_iff]
    intro a ha
    simpa using List.find?_eq_none.mp hfresh a ha
  refine ⟨?_, ?_, ?_⟩
  · simp [makeCall, hpn, hkey]
  · simp [makeCall, hpn, hkey, List.filter_append, hnil]
  · simp [makeCall, hpn, hkey]

/-- C4 witness: a fresh call from the startup state. -/
theorem makeCall_success_creates_session_witness :
    (makeCall initialState (some "+15551234567") (some "k") 5000
        (Except.ok "abc123")).1.sessions =
      initialState.sessions ++
        [{ id := initialState.nextId, callId := "abc123",
           phoneNumber := (some "+15551234567").getD "", status := "initiated",
           startTime := 5000, endTime := none, duration := none,
           conversationLog :=
             [{ timestamp := 5000, speaker := "system",
                message := "Call initiated successfully" }],
           createdAt := 5000 }] ∧
    ((makeCall initialState (some "+15551234567") (some "k") 5000
        (Except.ok "abc123")).1.sessions.filter
        (fun s => s.callId == "abc123")).length = 1 ∧
    (makeCall initialState (some "+15551234567") (some "k") 5000
        (Except.ok "abc123")).2 =
      { status := 200, success := true, message := some "Call initiated successfully",
        callId := some "abc123", sessionId := some initialState.nextId } :=
  makeCall_success_creates_session initialState (some "+15551234567") (some "k") 5000
    "abc123" rfl rfl rfl

/-- C5: when the provider request fails, no session is created and the
thrown error maps exactly as the catch block's table: upstream 401, 400
and 429 to the credential, phone-format and rate-limit responses, a
timeout code to 408, a truthy upstream detail or error message passed
through with 500, and otherwise the generic 500. -/
theorem makeCall_error_mapping (st : ServerState) (pn key : Option String) (now : Nat)
    (e : AxiosError) (hpn : truthy pn = true) (hkey : truthy key = true) :
    (makeCall st pn key now (Except.error e)).1 = st ∧
    (makeCall st pn key now (Except.error e)).2.success = false ∧
    ((e.responseStatus == some 401) = true →
      (makeCall st pn key now (Except.error e)).2.status = 401 ∧
      (makeCall st pn key now (Except.error e)).2.error =
        some "API Key Error: Check your ELEVENLABS_API_KEY in .env file") ∧
    ((e.responseStatus == some 401) = false → (e.responseStatus == some 400) = true →
      (makeCall st pn key now (Except.error e)).2.status = 400 ∧
      (makeCall st pn key now (Except.error e)).2.error =
        some "Phone Number Error: Make sure your number is in E.164 format") ∧
    ((e.responseStatus == some 401) = false → (e.responseStatus == some 400) = false →
      (e.responseStatus == some 429) = true →
      (makeCall st pn key now (Except.error e)).2.status = 429 ∧
      (makeCall st pn key now (Except.error e)).2.error =
        some "Rate limit exceeded. Please try again later.") ∧
    ((e.responseStatus == some 401) = false → (e.responseStatus == some 400) = false →
      (e.responseStatus == some 429) = false → (e.code == some "ECONNABORTED") = true →
      (makeCall st pn key now (Except.error e)).2.status = 408 ∧
      (makeCall st pn key now (Except.error e)).2.error =
        some "Request timeout. Please try again.") ∧
    ((e.responseStatus == some 401) = false → (e.responseStatus == some 400) = false →
      (e.responseStatus == some 429) = false → (e.code == some "ECONNABORTED") = false →
      truthy e.responseDetail = true →
      (makeCall st pn key now (Except.error e)).2.status = 500 ∧
      (makeCall st pn key now (Except.error e)).2.error = some (e.responseDetail.getD "")) ∧
    ((e.responseStatus == some 401) = false → (e.responseStatus == some 400) = false →
      (e.responseStatus == some 429) = false → (e.code == some "ECONNABORTED") = false →
      truthy e.responseDetail = false → truthy e.message = true →
      (makeCall st pn key now (Except.error e)).2.status = 500 ∧
      (makeCall st pn key now (Except.error e)).2.error = some (e.message.getD "")) ∧
    ((e.responseStatus == some 401) = false → (e.responseStatus == some 400) = false →
      (e.responseStatus == some 429) = false → (e.code == some "ECONNABORTED") = false →
      truthy e.responseDetail = false → truthy e.message = false →
      (makeCall st pn key now (Except.error e)).2.status = 500 ∧
      (makeCall st pn key now (Except.error e)).2.error = some "Failed to make call") := by
  refine ⟨?_, ?_, ?_, ?_, ?_, ?_, ?_, ?_, ?_⟩
  · simp [makeCall, hpn, hkey]
  · simp [makeCall, hpn, hkey]
  · intro h1
    constructor <;> simp [makeCall, hpn, hkey, mapCallError, h1]
  · intro h1 h2
    constructor <;> simp [makeCall, hpn, hkey, mapCallError, h1, h2]
  · intro h1 h2 h3
    constructor <;> simp [makeCall, hpn, hkey, mapCallError, h1, h2, h3]
  · intro h1 h2 h3 h4
    constructor <;> simp [makeCall, hpn, hkey, mapCallError, h1, h2, h3, h4]
  · intro h1 h2 h3 h4 h5
    constructor <;> simp [makeCall, hpn, hkey, mapCallError, h1, h2, h3, h4, h5]
  · intro h1 h2 h3 h4 h5 h6
    constructor <;> simp [makeCall, hpn, hkey, mapCallError, h1, h2, h3, h4, h5, h6]
  · intro h1 h2 h3 h4 h5 h6
    constructor <;> simp [makeCall, hpn, hkey, mapCallError, h1, h2, h3, h4, h5, h6]

/-- A concrete axios error fixture: an upstream 429 from the provider. -/
def ex429 : AxiosError :=
  { responseStatus := some 429, responseDetail := none, code := none,
    message := some "Request failed with status code 429" }

/-- C5 witness: a provider 429 maps to a 429 rate-limit response and no
session is created. -/
theorem makeCall_error_mapping_witness :
    (makeCall initialState (some "+15551234567") (some "k") 0 (Except.error ex429)).1 =
      initialState ∧
    (makeCall initialState (some "+15551234567") (some "k") 0
        (Except.error ex429)).2.status = 429 ∧
    (makeCall initialState (some "+15551234567") (some "k") 0
        (Except.error ex429)).2.error =
      some "Rate limit exceeded. Please try again later." := by
  have h := makeCall_error_mapping initialState (some "+15551234567") (some "k") 0
    ex429 rfl rfl
  exact ⟨h.1, (h.2.2.2.2.1 rfl rfl rfl).1, (h.2.2.2.2.1 rfl rfl rfl).2⟩

/-- C6: a falsy phone number yields the 400 validation response, a truthy
phone with a falsy API key yields the 500 configuration response; in both
cases the state is unchanged and the result is the same for every provider
outcome — the provider is never consulted. -/
theorem makeCall_preconditions (st : ServerState) (pn key : Option String) (now : Nat)
    (pr pr2 : Except AxiosError String) :
    (truthy pn = false →
      makeCall st pn key now pr = makeCall st pn key now pr2 ∧
      (makeCall st pn key now pr).1 = st ∧
      (makeCall st pn key now pr).2 =
        { status := 400, success := false, error := some "Phone number is required" }) ∧
    (truthy pn = true → truthy key = false →
      makeCall st pn key now pr = makeCall st pn key now pr2 ∧
      (makeCall st pn key now pr).1 = st ∧
      (makeCall st pn key now pr).2 =
        { status := 500, success := false,
          error := some
            "ElevenLabs API key not configured. Please add ELEVENLABS_API_KEY to your .env file" }) := by
  constructor
  · intro h
    refine ⟨?_, ?_, ?_⟩ <;> simp [makeCall, h]
  · intro h hk
    refine ⟨?_, ?_, ?_⟩ <;> simp [makeCall, h, hk]

/-- C6 witness: the empty phone number is rejected with a 400 before any
provider interaction — the same response whether the provider would have
succeeded or failed — and no session is created. -/
theorem makeCall_preconditions_witness :
    makeCall initialState (some "") (some "k") 0 (Except.ok "abc123") =
      makeCall initialState (some "") (some "k") 0 (Except.error ex429) ∧
    (makeCall initialState (some "") (some "k") 0 (Except.ok "abc123")).1 =
      initialState ∧
    (makeCall initialState (some "") (some "k") 0 (Except.ok "abc123")).2 =
      { status := 400, success := false, error := some "Phone number is required" } :=
  (makeCall_preconditions initialState (some "") (some "k") 0 (Except.ok "abc123")
    (Except.error ex429)).1 rfl

/-- C7: status lookup returns 404 when no session matches and otherwise
exactly the stored status, duration, startTime and endTime (the handler
reads only the local collection — `getStatus` takes no provider argument);
right after a successful make-call the stored values read back as status
initiated with endTime and duration unset. -/
theorem getStatus_spec (st : ServerState) (cid : String) :
    (st.sessions.find? (fun s => s.callId == cid) = none →
      getStatus st cid =
        { status := 404, success := false, error := some "Call session not found" }) ∧
    (∀ s, st.sessions.find? (fun t => t.callId == cid) = some s →
      getStatus st cid =
        { status := 200, success := true, callStatus := some s.status,
          duration := s.duration, startTime := some s.startTime, endTime := s.endTime }) ∧
    (∀ pn key now, truthy pn = true → truthy key = true →
      st.sessions.find? (fun s => s.callId == cid) = none →
      getStatus (makeCall st pn key now (Except.ok cid)).1 cid =
        { status := 200, success := true, callStatus := some "initiated",
          duration := none, startTime := some now, endTime := none }) := by
  refine ⟨?_, ?_, ?_⟩
  · intro h
    simp [getStatus, h]
  · intro s h
    simp [getStatus, h]
  · intro pn key now hpn hkey h
    simp [getStatus, makeCall, hpn, hkey, List.find?_append, h]

/-- C7 witness: lookups on the fixture state — an unknown id gives 404,
the stored session reads back as stored, and a fresh call reads back as
initiated with endTime unset. -/
theorem getStatus_spec_witness :
    getStatus exState "nope2" =
      { status := 404, success := false, error := some "Call session not found" } ∧
    getStatus exState "abc123" =
      { status := 200, success := true, callStatus := some exSession.status,
        duration := exSession.duration, startTime := some exSession.startTime,
        endTime := exSession.endTime } ∧
    getStatus (makeCall exState (some "+15550002222") (some "k") 7000
        (Except.ok "fresh77")).1 "fresh77" =
      { status := 200, success := true, callStatus := some "initiated",
        duration := none, startTime := some 7000, endTime := none } := by
  have h1 := (getStatus_spec exState "nope2").1 (by decide)
  have h2 := (getStatus_spec exState "abc123").2.1 exSession rfl
  have h3 := (getStatus_spec exState "fresh77").2.2 (some "+15550002222") (some "k") 7000
    rfl rfl (by decide)
  exact ⟨h1, h2, h3⟩

/-- C8: register rejects a missing field with 400, an existing username
with 409, and otherwise stores the user and returns only username and
mobile; registering the same username twice gives success then 409. -/
theorem register_spec (st : ServerState) (u m p : Option String) :
    ((truthy u && truthy m && truthy p) = false →
      register st u m p =
        (st, { status := 400, success := false, error := some "All fields are required." })) ∧
    ((truthy u && truthy m && truthy p) = true →
      (∀ w, st.users.find? (fun v => v.username == u.getD "") = some w →
        register st u m p =
          (st, { status := 409, success := false,
                 error := some "Username already exists." })) ∧
      (st.users.find? (fun v => v.username == u.getD "") = none →
        (register st u m p).1.users =
          st.users ++
            [{ username := u.getD "", mobile := m.getD "", password := p.getD "" }] ∧
        (register st u m p).2 =
          { status := 200, success := true,
            user := some { username := u.getD "", mobile := m.getD "" } } ∧
        (register (register st u m p).1 u m p).2 =
          { status := 409, success := false,
            error := some "Username already exists." })) := by
  constructor
  · intro h
    simp [register, h]
  · intro h
    constructor
    · intro w hw
      simp [register, h, hw]
    · intro hnone
      refine ⟨?_, ?_, ?_⟩
      · simp [register, h, hnone]
      · simp [register, h, hnone]
      · simp [register, h, hnone, List.find?_append]

/-- C8 witness: registering bob succeeds and a second registration of bob
is rejected with 409. -/
theorem register_spec_witness :
    (register exState (some "bob") (some "+15557778888") (some "hunter2")).1.users =
      exState.users ++
        [{ username := "bob", mobile := "+15557778888", password := "hunter2" }] ∧
    (register exState (some "bob") (some "+15557778888") (some "hunter2")).2 =
      { status := 200, success := true,
        user := some { username := "bob", mobile := "+15557778888" } } ∧
    (register (register exState (some "bob") (some "+15557778888") (some "hunter2")).1
        (some "bob") (some "+15557778888") (some "hunter2")).2 =
      { status := 409, success := false, error := some "Username already exists." } := by
  have h := ((register_spec exState (some "bob") (some "+15557778888")
    (some "hunter2")).2 rfl).2 (by decide)
  exact ⟨by exact h.1, h.2.1, h.2.2⟩

/-- C9: login rejects a missing field with 400; an absent user or a
password differing from the stored one under plain string equality gives
401; a matching password returns the stored username and mobile. -/
theorem login_spec (st : ServerState) (u p : Option String) :
    ((truthy u && truthy p) = false →
      login st u p =
        (st, { status := 400, success := false, error := some "All fields are required." })) ∧
    ((truthy u && truthy p) = true →
      (st.users.find? (fun v => v.username == u.getD "") = none →
        login st u p =
          (st, { status := 401, success := false,
                 error := some "Invalid username or password." })) ∧
      (∀ w, st.users.find? (fun v => v.username == u.getD "") = some w →
        (w.password ≠ p.getD "" →
          login st u p =
            (st, { status := 401, success := false,
                   error := some "Invalid username or password." })) ∧
        (w.password = p.getD "" →
          login st u p =
            (st, { status := 200, success := true,
                   user := some { username := w.username, mobile := w.mobile } })))) := by
  constructor
  · intro h
    simp [login, h]
  · intro h
    constructor
    · intro hnone
      simp [login, h, hnone]
    · intro w hw
      constructor
      · intro hne
        simp [login, h, hw, hne]
      · intro heq
        simp [login, h, hw, heq]

/-- C9 witness: alice logs in with the stored password and gets back the
stored mobile; a close wrong guess is rejected with 401. -/
theorem login_spec_witness :
    login exState (some "alice") (some "pw123") =
      (exState, { status := 200, success := true,
                  user := some { username := exUser.username, mobile := exUser.mobile } }) ∧
    login exState (some "alice") (some "pw124") =
      (exState, { status := 401, success := false,
                  error := some "Invalid username or password." }) := by
  have hok := (((login_spec exState (some "alice") (some "pw123")).2 rfl).2 exUser rfl).2 rfl
  have hbad := (((login_spec exState (some "alice") (some "pw124")).2 rfl).2 exUser rfl).1
    (by decide)
  exact ⟨hok, hbad⟩

end GrammarGuru
